import Mathlib

/-!
Verification of the LLM API Server chat core (`src/server.ts`).

The embedding below translates the chat pipeline of `server.ts` into Lean:

* `ChatMessage`, `ModelInfo`, `Usage`, `ChatResponse` mirror the TypeScript
  interfaces (lines 4-28).
* `JsonValue` models the post-`JSON.parse` value; `isFalsy` models JavaScript
  truthiness of the values JSON can produce (floating-point `NaN` does not
  arise from the integer fields the server inspects and is not modelled);
  `getField` models property access on a parsed value, with a missing property
  (`undefined`) and a non-object receiver both collapsing to `null`, which the
  validation code treats identically (both are falsy and not arrays).
* `prepareMessages` mirrors `prepareMessages` (lines 658-670).
* `summarizeConversation` mirrors `summarizeConversation` (lines 672-717);
  the backend completion call is the `Backend.complete` field, whose
  `Except` result models the thrown-versus-returned outcome of
  `model.sendRequest` plus stream consumption.
* `handleChatCore` mirrors the body of `handleChat` after model resolution
  (lines 588-631): token counting, the 80% threshold test, re-counting after
  summarization, the main completion call, and error classification.  The
  TypeScript compares `inputTokens > model.maxInputTokens * 0.8`; both sides
  scaled by 10 this is the exact integer comparison
  `10 * inputTokens > 8 * maxInputTokens` used here.
  `handleChatCore` additionally returns the list of completion requests it
  issued, in order: `summarizeConversation` always issues exactly one
  completion call, with `[summaryPrompt originalMessages]` as its argument
  (line 689), so the trace records that request first when summarization is
  triggered, and the main request (line 611) last.
* `resolveModel` mirrors line 580, `handleChatBody` the validation at
  lines 571-586, and `handleChatParsed` the `JSON.parse` branch at
  lines 563-569 (the parse outcome is the `Option JsonValue` argument).
* `responseOf` maps each outcome to the HTTP status and JSON body written by
  `handleChat` (lines 566-567, 573-574, 583-584, 630-631, 642-654).
* `handleChatHttp` gives the endpoint-level answer including the transport
  catch-all (lines 458-461): the body `null` — the only `JSON.parse` result
  whose property access throws — makes line 572 raise a TypeError outside
  the inner try block, answered with 500 `Internal server error`; every
  other body is answered through the chat-core branches.
-/

structure ChatMessage where
  role : String
  content : String
  deriving DecidableEq, Repr

structure ModelInfo where
  id : String
  name : String
  family : String
  vendor : String
  maxInputTokens : Nat
  deriving DecidableEq, Repr

structure Usage where
  input_tokens : Nat
  output_tokens : Nat
  deriving DecidableEq, Repr

structure ChatResponse where
  content : String
  usage : Usage
  deriving DecidableEq, Repr

/-- Native message representation of `vscode.LanguageModelChatMessage`:
`user` is `LanguageModelChatMessage.User`, `assistant` is
`LanguageModelChatMessage.Assistant`. -/
inductive NativeMessage where
  | user (content : String)
  | assistant (content : String)
  deriving DecidableEq, Repr

/-- Classified backend failure, modelling `vscode.LanguageModelError` codes
seen at lines 642-646 plus any other thrown error (`other` carries the
message read at line 654). -/
inductive LMError where
  | noPermissions
  | blocked
  | other (msg : String)
  deriving DecidableEq, Repr

/-- Outcome of one chat turn, one constructor per response branch of
`handleChat`. -/
inductive ChatOutcome where
  | invalidJson
  | invalidRequest
  | modelNotFound
  | permissionDenied
  | contentBlocked
  | completionFailed (msg : String)
  | success (resp : ChatResponse)
  deriving DecidableEq, Repr

/-- The model capability provider consumed by one turn: per-message token
counting (`model.countTokens` on a message), token counting on plain text
(`model.countTokens` on the output string, line 620), and the completion
operation (`model.sendRequest` followed by full stream consumption). -/
structure Backend where
  countTokens : NativeMessage → Nat
  countText : String → Nat
  complete : List NativeMessage → Except LMError String

/-- Value produced by `JSON.parse`.  JSON numbers are modelled as integers:
the server only ever tests a number for truthiness, where the unmodelled
non-integer values behave like nonzero integers. -/
inductive JsonValue where
  | null
  | bool (b : Bool)
  | num (n : Int)
  | str (s : String)
  | arr (xs : List JsonValue)
  | obj (fields : List (String × JsonValue))

/-- JavaScript truthiness test (`!x`) on a parsed JSON value. -/
def isFalsy : JsonValue → Bool
  | .null => true
  | .bool b => !b
  | .num n => n == 0
  | .str s => s == ""
  | _ => false

/-- `Array.isArray`. -/
def isArray : JsonValue → Bool
  | .arr _ => true
  | _ => false

/-- Non-throwing property access `v.name` on a parsed JSON value: a missing
property yields `null`, and so does a non-object receiver, which is faithful
for every receiver `JSON.parse` can produce except `null` itself — property
access on numbers, strings, booleans and arrays yields `undefined`, which the
validation treats exactly like `null` (falsy and not an array).  Property
access on the receiver `null` throws a TypeError in the source instead; that
case never reaches the validation path and is handled separately at the
endpoint level by `handleChatHttp`. -/
def getField : JsonValue → String → JsonValue
  | .obj fields, name =>
      match fields.find? (fun f => f.1 == name) with
      | some f => f.2
      | none => .null
  | _, _ => .null

/-- Validation at line 572:
`!(!req.model || !req.messages || !Array.isArray(req.messages))`. -/
def validChatRequest (body : JsonValue) : Bool :=
  !(isFalsy (getField body "model") || isFalsy (getField body "messages")
      || !(isArray (getField body "messages")))

/-- Reading one element of the `messages` array as a `ChatMessage`.  A missing
or non-string `role` is modelled as `""`, which matches none of the role
literals the adapter compares against, exactly as strict equality against a
non-string fails in the source; `content` is read the same way (its value only
matters for claims over messages whose fields are well-typed strings). -/
def decodeMessage (j : JsonValue) : ChatMessage :=
  { role :=
      match getField j "role" with
      | .str s => s
      | _ => ""
    content :=
      match getField j "content" with
      | .str s => s
      | _ => "" }

/-- Wire form of a well-shaped message, as the JSON body carries it. -/
def encodeMessage (m : ChatMessage) : JsonValue :=
  .obj [("role", .str m.role), ("content", .str m.content)]

/-- `prepareMessages` (lines 658-670): `user` and `system` map to the user
channel, `assistant` to the assistant channel, anything else is skipped. -/
def prepareMessages : List ChatMessage → List NativeMessage
  | [] => []
  | m :: rest =>
      if m.role == "user" || m.role == "system" then
        NativeMessage.user m.content :: prepareMessages rest
      else if m.role == "assistant" then
        NativeMessage.assistant m.content :: prepareMessages rest
      else
        prepareMessages rest

/-- Summed per-message token count (lines 593-596 and 604-607). -/
def inputTokenCount (backend : Backend) (messages : List NativeMessage) : Nat :=
  (messages.map backend.countTokens).sum

/-- Flat transcript of the original conversation (lines 680-682). -/
def conversationText (originalMessages : List ChatMessage) : String :=
  String.intercalate "\n\n"
    (originalMessages.map (fun m => m.role ++ ": " ++ m.content))

/-- The summarization request message (lines 684-686). -/
def summaryPrompt (originalMessages : List ChatMessage) : NativeMessage :=
  NativeMessage.user
    ("Please provide a concise summary of the following conversation, preserving key context and decisions:\n\n"
      ++ conversationText originalMessages)

/-- `summarizeConversation` (lines 672-717): issue the summary request; on
success return the summary message followed by the last user message of the
original conversation when one exists (`filter` + `pop`, lines 697-708); on
any failure return the last 4 entries of the already-adapted list
(`slice(-4)`, line 715). -/
def summarizeConversation (backend : Backend)
    (currentMessages : List NativeMessage)
    (originalMessages : List ChatMessage) : List NativeMessage :=
  match backend.complete [summaryPrompt originalMessages] with
  | .ok summary =>
      NativeMessage.user ("Previous conversation summary: " ++ summary) ::
        (match (originalMessages.filter (fun m => m.role == "user")).getLast? with
         | some m => [NativeMessage.user m.content]
         | none => [])
  | .error _ => currentMessages.drop (currentMessages.length - 4)

/-- Error classification of the main completion call (lines 639-654). -/
def mapError : LMError → ChatOutcome
  | .noPermissions => .permissionDenied
  | .blocked => .contentBlocked
  | .other msg => .completionFailed msg

/-- The main completion call and response assembly (lines 610-631):
`inputTokens` is the count already computed before the call. -/
def mainCall (backend : Backend) (messages : List NativeMessage)
    (inputTokens : Nat) : ChatOutcome :=
  match backend.complete messages with
  | .ok content =>
      ChatOutcome.success ⟨content, ⟨inputTokens, backend.countText content⟩⟩
  | .error e => mapError e

/-- Body of `handleChat` after model resolution (lines 588-631).  The second
component is the ordered list of completion requests issued: when the token
count strictly exceeds 80% of the budget, first the summarization request
(always issued exactly once inside `summarizeConversation`, line 689), then
the main request with the summarized or truncated list and a recomputed token
count (lines 601-607); otherwise only the main request with the adapted list
and the original count. -/
def handleChatCore (backend : Backend) (model : ModelInfo)
    (reqMessages : List ChatMessage) :
    ChatOutcome × List (List NativeMessage) :=
  if 8 * model.maxInputTokens
      < 10 * inputTokenCount backend (prepareMessages reqMessages) then
    (mainCall backend
        (summarizeConversation backend (prepareMessages reqMessages) reqMessages)
        (inputTokenCount backend
          (summarizeConversation backend (prepareMessages reqMessages) reqMessages)),
     [[summaryPrompt reqMessages],
      summarizeConversation backend (prepareMessages reqMessages) reqMessages])
  else
    (mainCall backend (prepareMessages reqMessages)
        (inputTokenCount backend (prepareMessages reqMessages)),
     [prepareMessages reqMessages])

/-- Model resolution (line 580): first descriptor matching by id or family. -/
def resolveModel (models : List ModelInfo) (modelId : String) : Option ModelInfo :=
  models.find? (fun m => m.id == modelId || m.family == modelId)

/-- Chat turn from a resolved-or-not model (lines 578-586 then 588-631): a
failed resolution answers `Model not found` with no completion call issued. -/
def handleChatTurn (backend : Backend) (models : List ModelInfo)
    (modelId : String) (reqMessages : List ChatMessage) :
    ChatOutcome × List (List NativeMessage) :=
  match resolveModel models modelId with
  | none => (ChatOutcome.modelNotFound, [])
  | some model => handleChatCore backend model reqMessages

/-- Chat turn from a parsed JSON body (lines 571-586).  After validation the
`model` field is matched: the source compares it with string ids and families
under strict equality, so a truthy non-string value matches no descriptor and
lands on the `Model not found` branch. -/
def handleChatBody (backend : Backend) (models : List ModelInfo)
    (body : JsonValue) : ChatOutcome × List (List NativeMessage) :=
  if validChatRequest body then
    match getField body "model" with
    | .str modelId =>
        handleChatTurn backend models modelId
          (match getField body "messages" with
           | .arr entries => entries.map decodeMessage
           | _ => [])
    | _ => (ChatOutcome.modelNotFound, [])
  else
    (ChatOutcome.invalidRequest, [])

/-- Chat turn from the raw body (lines 560-586): `none` models a body
`JSON.parse` rejects. -/
def handleChatParsed (backend : Backend) (models : List ModelInfo)
    (parsed : Option JsonValue) : ChatOutcome × List (List NativeMessage) :=
  match parsed with
  | none => (ChatOutcome.invalidJson, [])
  | some body => handleChatBody backend models body

/-- HTTP response written for each outcome: status code and JSON body
(`errorBody s` is the serialized object with the single field `error` set to
`s`, `chatBody r` the serialized success payload). -/
inductive ResponseBody where
  | errorBody (msg : String)
  | chatBody (resp : ChatResponse)
  deriving DecidableEq, Repr

/-- Status code and body per branch of `handleChat` (lines 566-567, 573-574,
583-584, 630-631, 642-654); line 654 substitutes `Unknown error` for a falsy
backend message. -/
def responseOf : ChatOutcome → Nat × ResponseBody
  | .invalidJson => (400, .errorBody "Invalid JSON")
  | .invalidRequest =>
      (400, .errorBody "Invalid request. Required: model (string), messages (array)")
  | .modelNotFound => (404, .errorBody "Model not found")
  | .permissionDenied =>
      (403, .errorBody "Permission denied. Please accept the Copilot consent dialog in VS Code.")
  | .contentBlocked => (400, .errorBody "Content blocked by model")
  | .completionFailed msg =>
      (500, .errorBody ("Chat request failed: "
        ++ (if msg == "" then "Unknown error" else msg)))
  | .success r => (200, .chatBody r)

/-- Full HTTP answer of the chat endpoint for a body `JSON.parse` accepted,
including the transport catch-all (lines 458-461).  The body `null` is the
one value `JSON.parse` can produce on which the property access
`chatRequest.model` at line 572 throws a TypeError; that throw happens
outside the inner try block, propagates to the outer handler, and is
answered with status 500 and body `Internal server error`.  Every other
body reaches the chat-core branches and is answered per `responseOf`. -/
def handleChatHttp (backend : Backend) (models : List ModelInfo)
    (body : JsonValue) : Nat × ResponseBody :=
  match body with
  | .null => (500, .errorBody "Internal server error")
  | _ => responseOf (handleChatBody backend models body).1

/-! Concrete providers and inputs used by witnesses and counterexamples. -/

/-- Backend where every message costs one token and every completion returns
the empty string. -/
def trivialBackend : Backend :=
  ⟨fun _ => 1, fun _ => 0, fun _ => .ok ""⟩

/-- Backend where every message costs 500 tokens and every completion
returns the text `SUM`. -/
def heavyBackend : Backend :=
  ⟨fun _ => 500, fun _ => 7, fun _ => .ok "SUM"⟩

/-- Backend where every message costs 500 tokens and every completion
fails unclassified. -/
def failBackend : Backend :=
  ⟨fun _ => 500, fun _ => 0, fun _ => .error (.other "boom")⟩

/-- Backend whose completions always fail with the `Blocked` code. -/
def blockedBackend : Backend :=
  ⟨fun _ => 1, fun _ => 0, fun _ => .error .blocked⟩

def demoModel : ModelInfo :=
  ⟨"m1", "Model One", "fam1", "vendor", 1000⟩

def demoReqShort : List ChatMessage :=
  [⟨"user", "hi"⟩]

def demoReqLong : List ChatMessage :=
  [⟨"user", "hello"⟩, ⟨"assistant", "hi"⟩, ⟨"user", "again"⟩]

/-- Claim C1: when the summed token count of the adapted messages is at most
80% of the model budget, the budget step leaves the message list unchanged
and issues no summarization call — the completion-request trace is exactly
the single main request carrying the adapted list — and conversely the trace
takes that shape only under the threshold, so summarization is triggered
exactly when the count strictly exceeds it. -/
theorem budget_identity_iff_within_threshold (backend : Backend)
    (model : ModelInfo) (req : List ChatMessage) :
    (handleChatCore backend model req).2 = [prepareMessages req] ↔
      10 * inputTokenCount backend (prepareMessages req)
        ≤ 8 * model.maxInputTokens := by
  rcases Nat.lt_or_ge (8 * model.maxInputTokens)
      (10 * inputTokenCount backend (prepareMessages req)) with h | h
  · unfold handleChatCore
    rw [if_pos h]
    simp
    omega
  · unfold handleChatCore
    rw [if_neg (Nat.not_lt.mpr h)]
    simp
    omega

/-- Witness for C1 at a one-message conversation against a 1000-token
budget. -/
theorem budget_identity_iff_within_threshold_w :
    (handleChatCore trivialBackend demoModel demoReqShort).2
      = [prepareMessages demoReqShort] :=
  (budget_identity_iff_within_threshold trivialBackend demoModel
    demoReqShort).mpr (by decide)

/-- Claim C2: over the threshold with a successful summarization call, the
trace is exactly one summarization request followed by the main request,
whose message set is the summary message and then a user-channel copy of the
content of the last user-role message of the original conversation, the
second entry omitted when no user-role message exists. -/
theorem summarization_success_message_set (backend : Backend)
    (model : ModelInfo) (req : List ChatMessage) (summary : String)
    (hover : 8 * model.maxInputTokens
      < 10 * inputTokenCount backend (prepareMessages req))
    (hok : backend.complete [summaryPrompt req] = Except.ok summary) :
    (handleChatCore backend model req).2 =
      [[summaryPrompt req],
       NativeMessage.user ("Previous conversation summary: " ++ summary) ::
         (match (req.filter (fun m => m.role == "user")).getLast? with
          | some m => [NativeMessage.user m.content]
          | none => [])] := by
  unfold handleChatCore
  rw [if_pos hover]
  simp [summarizeConversation, hok]

/-- Witness for C2 at a three-message conversation whose 1500-token count
exceeds the 800-token threshold. -/
theorem summarization_success_message_set_w :
    (handleChatCore heavyBackend demoModel demoReqLong).2 =
      [[summaryPrompt demoReqLong],
       [NativeMessage.user ("Previous conversation summary: " ++ "SUM"),
        NativeMessage.user "again"]] :=
  summarization_success_message_set heavyBackend demoModel demoReqLong "SUM"
    (by decide) rfl

/-- Claim C3: over the threshold with a failing summarization call, the
error is caught inside the budget step: the turn proceeds, the main request
carries the last 4 entries of the already-adapted list, and when the adapted
list has fewer than 4 entries it is kept whole. -/
theorem summarization_failure_truncates (backend : Backend)
    (model : ModelInfo) (req : List ChatMessage) (e : LMError)
    (hover : 8 * model.maxInputTokens
      < 10 * inputTokenCount backend (prepareMessages req))
    (hfail : backend.complete [summaryPrompt req] = Except.error e) :
    (handleChatCore backend model req).2 =
      [[summaryPrompt req],
       (prepareMessages req).drop ((prepareMessages req).length - 4)] ∧
    (handleChatCore backend model req).1 =
      mainCall backend
        ((prepareMessages req).drop ((prepareMessages req).length - 4))
        (inputTokenCount backend
          ((prepareMessages req).drop ((prepareMessages req).length - 4))) ∧
    ((prepareMessages req).length < 4 →
      (prepareMessages req).drop ((prepareMessages req).length - 4)
        = prepareMessages req) := by
  unfold handleChatCore
  rw [if_pos hover]
  refine ⟨by simp [summarizeConversation, hfail], by simp [summarizeConversation, hfail], ?_⟩
  intro hlen
  have hz : (prepareMessages req).length - 4 = 0 := by omega
  simp [hz]

/-- Witness for C3: the same over-threshold conversation with a failing
backend keeps all 3 adapted entries. -/
theorem summarization_failure_truncates_w :
    (handleChatCore failBackend demoModel demoReqLong).2 =
      [[summaryPrompt demoReqLong],
       (prepareMessages demoReqLong).drop
         ((prepareMessages demoReqLong).length - 4)] :=
  (summarization_failure_truncates failBackend demoModel demoReqLong
    (.other "boom") (by decide) rfl).1

/-- Input tokens reported on success are exactly the count computed for the
messages handed to the main completion call. -/
theorem mainCall_success_input_tokens (backend : Backend)
    (msgs : List NativeMessage) (t : Nat) (resp : ChatResponse)
    (hs : mainCall backend msgs t = ChatOutcome.success resp) :
    resp.usage.input_tokens = t := by
  unfold mainCall at hs
  cases hc : backend.complete msgs with
  | ok c =>
      rw [hc] at hs
      cases hs
      rfl
  | error e =>
      rw [hc] at hs
      cases e <;> simp [mapError] at hs

/-- Claim C4 (amended): on every successful turn, `usage.input_tokens`
equals the summed per-message token count of the final message list — the
last entry of the completion-request trace, i.e. the list actually passed to
the main completion call, recomputed after summarization or truncation when
either occurred. -/
theorem usage_reflects_final_messages (backend : Backend) (model : ModelInfo)
    (req : List ChatMessage) (resp : ChatResponse) (fm : List NativeMessage)
    (hs : (handleChatCore backend model req).1 = ChatOutcome.success resp)
    (hl : (handleChatCore backend model req).2.getLast? = some fm) :
    resp.usage.input_tokens = inputTokenCount backend fm := by
  rcases Nat.lt_or_ge (8 * model.maxInputTokens)
      (10 * inputTokenCount backend (prepareMessages req)) with h | h
  · unfold handleChatCore at hs hl
    rw [if_pos h] at hs hl
    simp at hs hl
    subst hl
    exact mainCall_success_input_tokens _ _ _ _ hs
  · unfold handleChatCore at hs hl
    rw [if_neg (Nat.not_lt.mpr h)] at hs hl
    simp at hs hl
    subst hl
    exact mainCall_success_input_tokens _ _ _ _ hs

/-- Witness for the amended C4 at an under-threshold turn. -/
theorem usage_reflects_final_messages_w :
    (ChatResponse.mk "" ⟨1, 0⟩).usage.input_tokens
      = inputTokenCount trivialBackend [NativeMessage.user "hi"] :=
  usage_reflects_final_messages trivialBackend demoModel demoReqShort
    ⟨"", ⟨1, 0⟩⟩ [NativeMessage.user "hi"] (by decide) (by decide)

/-- Backend and model realizing a coincidence: after summarization the
message list changed but its recomputed token count equals the
pre-summarization count. -/
def cexBackend : Backend :=
  ⟨fun m =>
      match m with
      | .user c => if c == "a" then 9 else 0
      | .assistant _ => 0,
   fun _ => 1,
   fun _ => .ok "S"⟩

def cexModel : ModelInfo :=
  ⟨"cx", "Coincidence", "cx", "vendor", 10⟩

def cexReq : List ChatMessage :=
  [⟨"user", "a"⟩]

/-- Counterexample to C4 as stated: a turn where summarization replaced the
message list, yet the recomputed `usage.input_tokens` (9) equals the
pre-summarization count (9), refuting that the reported value never equals
the pre-summarization count when the list changed. -/
theorem usage_equals_presummarization_cex :
    (handleChatCore cexBackend cexModel cexReq).1 =
        ChatOutcome.success ⟨"S", ⟨9, 1⟩⟩ ∧
    inputTokenCount cexBackend (prepareMessages cexReq) = 9 ∧
    (handleChatCore cexBackend cexModel cexReq).2.getLast? =
        some [NativeMessage.user ("Previous conversation summary: " ++ "S"),
              NativeMessage.user "a"] ∧
    [NativeMessage.user ("Previous conversation summary: " ++ "S"),
     NativeMessage.user "a"] ≠ prepareMessages cexReq := by
  decide

/-- Claim C5 (amended): every non-success outcome answers with a JSON body
holding a single error string; status 400 is answered exactly for invalid
JSON, invalid request shape, and blocked content; 403 exactly for the
no-permission failure; 404 exactly for model-not-found; 500 exactly for any
other completion failure, whose body carries the backend message; and the
backend error codes classify as the taxonomy states. -/
theorem error_taxonomy (backend : Backend) (models : List ModelInfo)
    (parsed : Option JsonValue) (o : ChatOutcome)
    (_ho : o = (handleChatParsed backend models parsed).1) :
    ((responseOf o).1 = 400 ↔
        (o = ChatOutcome.invalidJson ∨ o = ChatOutcome.invalidRequest
          ∨ o = ChatOutcome.contentBlocked)) ∧
    ((responseOf o).1 = 403 ↔ o = ChatOutcome.permissionDenied) ∧
    ((responseOf o).1 = 404 ↔ o = ChatOutcome.modelNotFound) ∧
    ((responseOf o).1 = 500 ↔ ∃ m, o = ChatOutcome.completionFailed m) ∧
    ((∀ r, o ≠ ChatOutcome.success r) →
        ∃ s, (responseOf o).2 = ResponseBody.errorBody s) ∧
    mapError LMError.blocked = ChatOutcome.contentBlocked ∧
    mapError LMError.noPermissions = ChatOutcome.permissionDenied ∧
    (∀ m, mapError (LMError.other m) = ChatOutcome.completionFailed m) := by
  cases o with
  | success r =>
      refine ⟨by simp [responseOf], by simp [responseOf], by simp [responseOf],
        by simp [responseOf], ?_, rfl, rfl, fun m => rfl⟩
      intro hne
      exact absurd rfl (hne r)
  | invalidJson => simp [responseOf, mapError]
  | invalidRequest => simp [responseOf, mapError]
  | modelNotFound => simp [responseOf, mapError]
  | permissionDenied => simp [responseOf, mapError]
  | contentBlocked => simp [responseOf, mapError]
  | completionFailed m => simp [responseOf, mapError]

/-- Witness for the amended C5 at the invalid-JSON branch. -/
theorem error_taxonomy_w : (responseOf ChatOutcome.invalidJson).1 = 400 :=
  ((error_taxonomy trivialBackend [] none ChatOutcome.invalidJson rfl).1).mpr
    (Or.inl rfl)

/-- The chat-page body used by the blocked-content counterexample. -/
def goodBody : JsonValue :=
  .obj [("model", .str "m1"),
        ("messages", .arr [encodeMessage ⟨"user", "hi"⟩])]

/-- Counterexample to C5 as stated: a well-formed request whose main
completion call fails with the `Blocked` code is answered with status 400,
so 400 is not reserved to invalid JSON and invalid request shapes. -/
theorem status400_not_only_invalid_cex :
    (handleChatParsed blockedBackend [demoModel] (some goodBody)).1
        = ChatOutcome.contentBlocked ∧
    (responseOf ChatOutcome.contentBlocked).1 = 400 ∧
    ChatOutcome.contentBlocked ≠ ChatOutcome.invalidJson ∧
    ChatOutcome.contentBlocked ≠ ChatOutcome.invalidRequest := by
  decide

/-- The main completion call never classifies as an invalid request. -/
theorem mainCall_ne_invalidRequest (backend : Backend)
    (msgs : List NativeMessage) (t : Nat) :
    mainCall backend msgs t ≠ ChatOutcome.invalidRequest := by
  unfold mainCall
  cases backend.complete msgs with
  | ok c => simp
  | error e => cases e <;> simp [mapError]

/-- The core turn never classifies as an invalid request. -/
theorem handleChatCore_ne_invalidRequest (backend : Backend)
    (model : ModelInfo) (req : List ChatMessage) :
    (handleChatCore backend model req).1 ≠ ChatOutcome.invalidRequest := by
  unfold handleChatCore
  rcases Nat.lt_or_ge (8 * model.maxInputTokens)
      (10 * inputTokenCount backend (prepareMessages req)) with h | h
  · rw [if_pos h]
    exact mainCall_ne_invalidRequest _ _ _
  · rw [if_neg (Nat.not_lt.mpr h)]
    exact mainCall_ne_invalidRequest _ _ _

/-- A chat turn past validation never classifies as an invalid request. -/
theorem handleChatTurn_ne_invalidRequest (backend : Backend)
    (models : List ModelInfo) (modelId : String) (req : List ChatMessage) :
    (handleChatTurn backend models modelId req).1
      ≠ ChatOutcome.invalidRequest := by
  unfold handleChatTurn
  cases h : resolveModel models modelId with
  | none => simp
  | some model => exact handleChatCore_ne_invalidRequest backend model req

/-- The chat core classifies a body as an invalid request exactly when the
line-572 check fails. -/
theorem handleChatBody_invalidRequest_iff (backend : Backend)
    (models : List ModelInfo) (body : JsonValue) :
    (handleChatBody backend models body).1 = ChatOutcome.invalidRequest ↔
      validChatRequest body = false := by
  unfold handleChatBody
  cases hv : validChatRequest body with
  | false => simp [hv]
  | true =>
      simp only [hv, if_true]
      cases hm : getField body "model" with
      | str s =>
          simp only []
          constructor
          · intro hcontr
            exact absurd hcontr (handleChatTurn_ne_invalidRequest _ _ _ _)
          · intro hcontr
            cases hcontr
      | null => simp
      | bool b => simp
      | num n => simp
      | arr xs => simp
      | obj fields => simp

/-- A body failing the line-572 check is rejected with no completion call. -/
theorem handleChatBody_invalid_of_not_valid (backend : Backend)
    (models : List ModelInfo) (body : JsonValue)
    (hv : validChatRequest body = false) :
    handleChatBody backend models body = (ChatOutcome.invalidRequest, []) := by
  unfold handleChatBody
  simp [hv]

/-- Only the invalid-request outcome is answered with status 400 and the
invalid-request body. -/
theorem responseOf_invalid_request_inv (o : ChatOutcome)
    (h : responseOf o =
      (400, ResponseBody.errorBody
        "Invalid request. Required: model (string), messages (array)")) :
    o = ChatOutcome.invalidRequest := by
  cases o with
  | invalidRequest => rfl
  | invalidJson => exact absurd h (by decide)
  | modelNotFound => exact absurd h (by decide)
  | permissionDenied => exact absurd h (by decide)
  | contentBlocked => exact absurd h (by decide)
  | completionFailed m => simp [responseOf] at h
  | success r => simp [responseOf] at h

/-- Away from the throwing body `null`, the endpoint answer is the chat-core
answer. -/
theorem handleChatHttp_of_ne_null (backend : Backend)
    (models : List ModelInfo) (body : JsonValue) (hb : body ≠ JsonValue.null) :
    handleChatHttp backend models body
      = responseOf (handleChatBody backend models body).1 := by
  cases body with
  | null => exact absurd rfl hb
  | bool v => rfl
  | num n => rfl
  | str s => rfl
  | arr xs => rfl
  | obj fs => rfl

/-- Claim C6 (amended): the 400 invalid-request answer is produced exactly
when the parsed body is not `null` and its `model` field is absent or falsy
or its `messages` field is absent or not an array; in that case the request
is rejected before model resolution with no completion call issued; the
body `null` instead makes the line-572 property access throw, and the
transport catch-all answers 500 `Internal server error`; and a body whose
`model` is a nonempty string and whose `messages` is any array — whatever
the shape of its entries, including an empty array — passes validation. -/
theorem invalid_request_iff_shape (backend : Backend)
    (models : List ModelInfo) (body : JsonValue) :
    (handleChatHttp backend models body
        = (400, ResponseBody.errorBody
            "Invalid request. Required: model (string), messages (array)") ↔
      (body ≠ JsonValue.null ∧ validChatRequest body = false)) ∧
    (body ≠ JsonValue.null → validChatRequest body = false →
        handleChatBody backend models body = (ChatOutcome.invalidRequest, [])) ∧
    (handleChatHttp backend models JsonValue.null
        = (500, ResponseBody.errorBody "Internal server error")) ∧
    (∀ (s : String) (entries : List JsonValue), s ≠ "" →
        validChatRequest
          (JsonValue.obj [("model", JsonValue.str s),
                          ("messages", JsonValue.arr entries)]) = true) := by
  refine ⟨⟨?_, ?_⟩,
    fun _ hv => handleChatBody_invalid_of_not_valid backend models body hv,
    rfl, ?_⟩
  · intro h
    by_cases hb : body = JsonValue.null
    · subst hb
      simp [handleChatHttp] at h
    · refine ⟨hb, ?_⟩
      rw [handleChatHttp_of_ne_null backend models body hb] at h
      exact (handleChatBody_invalidRequest_iff backend models body).mp
        (responseOf_invalid_request_inv _ h)
  · rintro ⟨hb, hv⟩
    rw [handleChatHttp_of_ne_null backend models body hb,
      handleChatBody_invalid_of_not_valid backend models body hv]
    rfl
  · intro s entries hs
    have hg1 : getField
        (JsonValue.obj [("model", JsonValue.str s),
                        ("messages", JsonValue.arr entries)]) "model"
        = JsonValue.str s := rfl
    have hg2 : getField
        (JsonValue.obj [("model", JsonValue.str s),
                        ("messages", JsonValue.arr entries)]) "messages"
        = JsonValue.arr entries := rfl
    have h1 : (s == "") = false := beq_eq_false_iff_ne.mpr hs
    simp only [validChatRequest, hg1, hg2]
    simp [isFalsy, isArray, h1]

/-- Witness for the amended C6 at a non-null object body missing both
required fields. -/
theorem invalid_request_iff_shape_w :
    handleChatHttp trivialBackend [] (JsonValue.obj [])
      = (400, ResponseBody.errorBody
          "Invalid request. Required: model (string), messages (array)") :=
  ((invalid_request_iff_shape trivialBackend [] (JsonValue.obj [])).1).mpr
    ⟨fun h => JsonValue.noConfusion h, rfl⟩

/-- Counterexample to C6 as stated: a body whose `messages` array holds an
entry with no fields at all passes validation and reaches model resolution
(here answering model-not-found against an empty model list), so a wrong
shape of an individual message does not produce the 400 invalid-request
answer. -/
theorem malformed_entry_not_rejected_cex :
    validChatRequest
        (JsonValue.obj [("model", JsonValue.str "m1"),
                        ("messages", JsonValue.arr [JsonValue.obj []])]) = true ∧
    handleChatBody trivialBackend []
        (JsonValue.obj [("model", JsonValue.str "m1"),
                        ("messages", JsonValue.arr [JsonValue.obj []])])
      = (ChatOutcome.modelNotFound, []) ∧
    ChatOutcome.modelNotFound ≠ ChatOutcome.invalidRequest := by
  decide

/-- Claim C7: resolution succeeds exactly when a descriptor matches the
requested identifier by id or family; the first matching descriptor in list
order is taken; and on no match the turn answers 404 model-not-found with no
completion call issued. -/
theorem model_resolution (backend : Backend) (models : List ModelInfo)
    (modelId : String) (req : List ChatMessage) :
    ((resolveModel models modelId).isSome ↔
        ∃ m, m ∈ models ∧ (m.id = modelId ∨ m.family = modelId)) ∧
    (∀ pre m post, models = pre ++ m :: post →
        (m.id = modelId ∨ m.family = modelId) →
        (∀ m2, m2 ∈ pre → m2.id ≠ modelId ∧ m2.family ≠ modelId) →
        resolveModel models modelId = some m) ∧
    (resolveModel models modelId = none →
        handleChatTurn backend models modelId req
          = (ChatOutcome.modelNotFound, []) ∧
        responseOf ChatOutcome.modelNotFound
          = (404, ResponseBody.errorBody "Model not found")) := by
  refine ⟨?_, ?_, ?_⟩
  · rw [resolveModel, List.find?_isSome]
    constructor
    · rintro ⟨m, hmem, hp⟩
      simp at hp
      exact ⟨m, hmem, hp⟩
    · rintro ⟨m, hmem, hp⟩
      refine ⟨m, hmem, ?_⟩
      simp [hp]
  · rintro pre m post rfl hm hpre
    unfold resolveModel
    induction pre with
    | nil =>
        apply List.find?_cons_of_pos
        simp [hm]
    | cons hd tl ih =>
        rw [List.cons_append, List.find?_cons_of_neg]
        · exact ih (fun m2 hm2 => hpre m2 (List.mem_cons_of_mem _ hm2))
        · obtain ⟨h1, h2⟩ := hpre hd (List.mem_cons_self _ _)
          simp [h1, h2]
  · intro h
    refine ⟨?_, rfl⟩
    unfold handleChatTurn
    simp [h]

/-- Witness for C7: resolution against an empty model list fails and the
turn issues no completion call. -/
theorem model_resolution_w :
    handleChatTurn trivialBackend [] "x" [] = (ChatOutcome.modelNotFound, []) :=
  ((model_resolution trivialBackend [] "x" []).2.2 rfl).1

/-- Claim C8: when every role is `system`, `user` or `assistant`, the
adapter emits exactly one native message per input message, in order, with
`assistant` on the assistant channel, the other two roles on the user
channel, and the content carried unchanged. -/
theorem adapter_known_roles (msgs : List ChatMessage)
    (h : ∀ m ∈ msgs, m.role = "system" ∨ m.role = "user" ∨ m.role = "assistant") :
    prepareMessages msgs =
      msgs.map (fun m =>
        if m.role == "assistant" then NativeMessage.assistant m.content
        else NativeMessage.user m.content) ∧
    (prepareMessages msgs).length = msgs.length := by
  have key : prepareMessages msgs =
      msgs.map (fun m =>
        if m.role == "assistant" then NativeMessage.assistant m.content
        else NativeMessage.user m.content) := by
    induction msgs with
    | nil => rfl
    | cons hd tl ih =>
        have htl : ∀ m ∈ tl,
            m.role = "system" ∨ m.role = "user" ∨ m.role = "assistant" :=
          fun m hm => h m (List.mem_cons_of_mem _ hm)
        rcases h hd (List.mem_cons_self _ _) with h1 | h1 | h1 <;>
          simp [prepareMessages, h1, ih htl]
  exact ⟨key, by rw [key, List.length_map]⟩

/-- Witness for C8 at one message of each role. -/
theorem adapter_known_roles_w :
    prepareMessages [⟨"system", "s"⟩, ⟨"user", "u"⟩, ⟨"assistant", "a"⟩] =
      [NativeMessage.user "s", NativeMessage.user "u",
       NativeMessage.assistant "a"] :=
  (adapter_known_roles
    [⟨"system", "s"⟩, ⟨"user", "u"⟩, ⟨"assistant", "a"⟩] (by decide)).1

/-- Claim C9: a body whose `model` field is the empty string and whose
`messages` field is any array is rejected by validation with the 400
invalid-request answer — the empty string is falsy, exactly like an absent
field — and not with the model-not-found answer. -/
theorem empty_model_string_rejected (backend : Backend)
    (models : List ModelInfo) (entries : List JsonValue) :
    handleChatBody backend models
        (JsonValue.obj [("model", JsonValue.str ""),
                        ("messages", JsonValue.arr entries)])
      = (ChatOutcome.invalidRequest, []) ∧
    responseOf ChatOutcome.invalidRequest
      = (400, ResponseBody.errorBody
          "Invalid request. Required: model (string), messages (array)") ∧
    ChatOutcome.invalidRequest ≠ ChatOutcome.modelNotFound := by
  refine ⟨rfl, rfl, by decide⟩

/-- The adapter distributes over list concatenation. -/
theorem prepareMessages_append (xs ys : List ChatMessage) :
    prepareMessages (xs ++ ys) = prepareMessages xs ++ prepareMessages ys := by
  induction xs with
  | nil => rfl
  | cons hd tl ih =>
      by_cases h1 : (hd.role == "user" || hd.role == "system") = true
      · simp [prepareMessages, h1, ih]
      · by_cases h2 : (hd.role == "assistant") = true
        · simp [prepareMessages, h1, h2, ih]
        · simp [prepareMessages, h1, h2, ih]

/-- The adapter never lengthens the conversation. -/
theorem prepareMessages_length_le (l : List ChatMessage) :
    (prepareMessages l).length ≤ l.length := by
  induction l with
  | nil => simp [prepareMessages]
  | cons hd tl ih =>
      by_cases h1 : (hd.role == "user" || hd.role == "system") = true
      · simp [prepareMessages, h1]
        omega
      · by_cases h2 : (hd.role == "assistant") = true
        · simp [prepareMessages, h1, h2]
          omega
        · simp [prepareMessages, h1, h2]
          omega

/-- Decoding a well-shaped wire message restores it. -/
theorem decodeMessage_encodeMessage (m : ChatMessage) :
    decodeMessage (encodeMessage m) = m := rfl

/-- Claim C10: a message whose role is none of the three known roles does
not fail validation — a body carrying it (with a nonempty model string) is
accepted and processed as those very messages — and the adapter drops it,
emitting nothing for it, so the adapted list is strictly shorter than the
conversation. -/
theorem unknown_role_accepted_and_dropped (backend : Backend)
    (models : List ModelInfo) (pre post : List ChatMessage) (m : ChatMessage)
    (s : String) (h1 : m.role ≠ "user") (h2 : m.role ≠ "system")
    (h3 : m.role ≠ "assistant") (hs : s ≠ "") :
    validChatRequest
        (JsonValue.obj [("model", JsonValue.str s),
          ("messages", JsonValue.arr ((pre ++ m :: post).map encodeMessage))])
      = true ∧
    handleChatBody backend models
        (JsonValue.obj [("model", JsonValue.str s),
          ("messages", JsonValue.arr ((pre ++ m :: post).map encodeMessage))])
      = handleChatTurn backend models s (pre ++ m :: post) ∧
    prepareMessages (pre ++ m :: post)
      = prepareMessages pre ++ prepareMessages post ∧
    (prepareMessages (pre ++ m :: post)).length < (pre ++ m :: post).length := by
  have hval : validChatRequest
      (JsonValue.obj [("model", JsonValue.str s),
        ("messages", JsonValue.arr ((pre ++ m :: post).map encodeMessage))])
      = true := by
    have hb : (s == "") = false := beq_eq_false_iff_ne.mpr hs
    simp only [validChatRequest]
    have hg1 : getField
        (JsonValue.obj [("model", JsonValue.str s),
          ("messages", JsonValue.arr ((pre ++ m :: post).map encodeMessage))])
        "model" = JsonValue.str s := rfl
    have hg2 : getField
        (JsonValue.obj [("model", JsonValue.str s),
          ("messages", JsonValue.arr ((pre ++ m :: post).map encodeMessage))])
        "messages" = JsonValue.arr ((pre ++ m :: post).map encodeMessage) := rfl
    rw [hg1, hg2]
    simp [isFalsy, isArray, hb]
  have hdrop : prepareMessages (pre ++ m :: post)
      = prepareMessages pre ++ prepareMessages post := by
    have hsplit : pre ++ m :: post = pre ++ [m] ++ post := by simp
    have hone : prepareMessages [m] = [] := by
      have b1 : (m.role == "user") = false := beq_eq_false_iff_ne.mpr h1
      have b2 : (m.role == "system") = false := beq_eq_false_iff_ne.mpr h2
      have b3 : (m.role == "assistant") = false := beq_eq_false_iff_ne.mpr h3
      simp [prepareMessages, b1, b2, b3]
    rw [hsplit, prepareMessages_append, prepareMessages_append, hone]
    simp
  refine ⟨hval, ?_, hdrop, ?_⟩
  · unfold handleChatBody
    rw [hval]
    have hg1 : getField
        (JsonValue.obj [("model", JsonValue.str s),
          ("messages", JsonValue.arr ((pre ++ m :: post).map encodeMessage))])
        "model" = JsonValue.str s := rfl
    have hg2 : getField
        (JsonValue.obj [("model", JsonValue.str s),
          ("messages", JsonValue.arr ((pre ++ m :: post).map encodeMessage))])
        "messages" = JsonValue.arr ((pre ++ m :: post).map encodeMessage) := rfl
    rw [hg1, hg2]
    simp [List.map_map, Function.comp_def, decodeMessage_encodeMessage]
  · rw [hdrop]
    have l1 := prepareMessages_length_le pre
    have l2 := prepareMessages_length_le post
    simp only [List.length_append, List.length_cons]
    omega

/-- Witness for C10 at a single message of role `function`. -/
theorem unknown_role_accepted_and_dropped_w :
    (prepareMessages [ChatMessage.mk "function" "x"]).length
      < ([ChatMessage.mk "function" "x"] : List ChatMessage).length :=
  (unknown_role_accepted_and_dropped trivialBackend [] [] []
    ⟨"function", "x"⟩ "m1" (by decide) (by decide) (by decide)
    (by decide)).2.2.2
